import Mathlib

/-
Verification of the generic OFX aggregate-decoding engine in
ofxtools/models.py: the tree-flattening algorithm (`Aggregate._flatten`),
the grooming step (`Aggregate._groom`), the MRO-based field composition
(`Aggregate.elements`), record construction (`Aggregate.__init__`), the
per-class pre/post-flatten hooks, and the dispatch pipeline
(`Aggregate.from_etree`).

Embedding conventions:
- An `xml.etree.ElementTree.Element` is a `RawElem`: tag, optional text,
  ordered children.  (Attributes are never used by models.py.)
- Python dicts (insertion-ordered) are association lists
  `List (String × v)`; `upd` is `d[k] = v` (replace in place, else
  append), `updMany` is `d.update(d2)`.
- A failed `assert` raises `AssertionError`; errors are the `DErr`
  inductive carried in `Except`.
- Python recursion is modelled with an explicit fuel parameter (the call
  stack); theorems quantify over fuel or instantiate it large enough.
- Tag lowercasing (`str.lower`) is modelled for ASCII, which covers all
  OFX tags; text stripping (`str.strip`) is `stripStr` below.
- The field descriptors (`ofxtools.Types.Element` subclasses: String,
  Decimal, OneOf, ...) live outside this repository slice; a descriptor
  is modelled as the pair (declaring class, literal descriptor source
  text), which preserves identity and declaration site.  Value
  validation performed by descriptor `__set__` is not modelled; `setattr`
  stores the raw value.
-/

/-- A parsed markup node: tag, optional text, ordered children.
Mirrors the `ofx.Parser.Element` / `ElementTree.Element` interface that
models.py consumes: `.tag`, `.text`, iteration over children, `find`,
`remove`. -/
inductive RawElem : Type where
  | mk (tag : String) (text : Option String) (children : List RawElem)

def RawElem.tag : RawElem → String
  | .mk t _ _ => t

def RawElem.text : RawElem → Option String
  | .mk _ x _ => x

def RawElem.children : RawElem → List RawElem
  | .mk _ _ cs => cs

/-- Python dict membership `k in d`. -/
def containsD {v : Type} (d : List (String × v)) (k : String) : Bool :=
  d.any (fun kv => kv.1 == k)

/-- Python dict assignment `d[k] = x`: replace in place if the key is
present (insertion order kept), otherwise append. -/
def upd {v : Type} (d : List (String × v)) (k : String) (x : v) :
    List (String × v) :=
  if containsD d k then
    d.map (fun kv => if kv.1 == k then (k, x) else kv)
  else
    d ++ [(k, x)]

/-- Python `d.update(d2)`. -/
def updMany {v : Type} (d d2 : List (String × v)) : List (String × v) :=
  d2.foldl (fun acc kv => upd acc kv.1 kv.2) d

/-- ASCII lowercasing of one character, as `str.lower` acts on the
ASCII range (all OFX tags are ASCII). -/
def lowerChar (c : Char) : Char :=
  match c with
  | 'A' => 'a' | 'B' => 'b' | 'C' => 'c' | 'D' => 'd' | 'E' => 'e'
  | 'F' => 'f' | 'G' => 'g' | 'H' => 'h' | 'I' => 'i' | 'J' => 'j'
  | 'K' => 'k' | 'L' => 'l' | 'M' => 'm' | 'N' => 'n' | 'O' => 'o'
  | 'P' => 'p' | 'Q' => 'q' | 'R' => 'r' | 'S' => 's' | 'T' => 't'
  | 'U' => 'u' | 'V' => 'v' | 'W' => 'w' | 'X' => 'x' | 'Y' => 'y'
  | 'Z' => 'z'
  | other => other

/-- Python `tag.lower()` for ASCII tags. -/
def lowerString (s : String) : String :=
  ⟨s.data.map lowerChar⟩

/-- Python `'.' in tag`. -/
def hasDot (s : String) : Bool :=
  s.data.any (fun c => c == '.')

/-- ASCII whitespace, as recognised by `str.strip()`. -/
def isSpaceChar (c : Char) : Bool :=
  c == ' ' || c == '\t' || c == '\n' || c == '\r' || c == '\x0b' || c == '\x0c'

/-- Python `data.strip()`: remove leading and trailing whitespace. -/
def stripStr (s : String) : String :=
  ⟨((s.data.dropWhile isSpaceChar).reverse.dropWhile isSpaceChar).reverse⟩

/-- The errors the decoder can raise, structured.  `assertionError` is a
bare failed `assert`; `mutuallyExclusive parent a b` is the
`ValueError("<parent> may not contain both <a> and <b>")` raised by
`_groom`; `keyError name` is the `KeyError` from `globals()[elem.tag]`;
`undefinedElements cls keys` is the
`ValueError("Undefined element(s) for 'cls': keys")` from
`Aggregate.__init__`; `recursionLimit` models fuel/stack exhaustion. -/
inductive DErr : Type where
  | assertionError
  | mutuallyExclusive (parent a b : String)
  | keyError (name : String)
  | undefinedElements (cls : String) (keys : List String)
  | recursionLimit
  deriving Repr, DecidableEq

/-- The `Element` field declarations written in each class body of
models.py, in declaration order: field name paired with the literal
descriptor expression.  Class attributes that are not `Element`
instances (`MFINFO.mfassetclass = []`, `STMTTRN.payee = None`, methods,
...) are excluded, exactly as the `isinstance(v, Element)` filter in
`Aggregate.elements` excludes them. -/
def ownElems : String → List (String × String)
  | "FI" => [("org", "String(32)"), ("fid", "String(32)")]
  | "STATUS" =>
    [("code", "Integer(6, required=True)"),
     ("severity", "OneOf('INFO', 'WARN', 'ERROR', required=True)"),
     ("message", "String(255)")]
  | "SONRS" =>
    [("dtserver", "DateTime(required=True)"), ("userkey", "String(64)"),
     ("tskeyexpire", "DateTime()"), ("language", "OneOf(*LANG_CODES)"),
     ("dtprofup", "DateTime()"), ("dtacctup", "DateTime()"),
     ("sesscookie", "String(1000)"), ("accesskey", "String(1000)")]
  | "CURRENCY" =>
    [("cursym", "OneOf(*CURRENCY_CODES)"), ("currate", "Decimal(8)")]
  | "ORIGCURRENCY" => [("curtype", "OneOf('CURRENCY', 'ORIGCURRENCY')")]
  | "ACCTFROM" => [("acctid", "String(22, required=True)")]
  | "BANKACCTFROM" =>
    [("bankid", "String(9, required=True)"), ("branchid", "String(22)"),
     ("accttype", "OneOf(*ACCTTYPES, required=True)"),
     ("acctkey", "String(22)")]
  | "CCACCTFROM" => [("acctkey", "String(22)")]
  | "INVACCTFROM" => [("brokerid", "String(22, required=True)")]
  | "LEDGERBAL" =>
    [("balamt", "Decimal(required=True)"),
     ("dtasof", "DateTime(required=True)")]
  | "AVAILBAL" =>
    [("balamt", "Decimal(required=True)"),
     ("dtasof", "DateTime(required=True)")]
  | "INVBAL" =>
    [("availcash", "Decimal(required=True)"),
     ("marginbalance", "Decimal(required=True)"),
     ("shortbalance", "Decimal(required=True)"), ("buypower", "Decimal()")]
  | "BAL" =>
    [("name", "String(32, required=True)"),
     ("desc", "String(80, required=True)"),
     ("baltype", "OneOf('DOLLAR', 'PERCENT', 'NUMBER', required=True)"),
     ("value", "Decimal(required=True)"), ("dtasof", "DateTime()")]
  | "SECID" =>
    [("uniqueid", "String(32, required=True)"),
     ("uniqueidtype", "String(10, required=True)")]
  | "SECINFO" =>
    [("secname", "NagString(120, required=True)"),
     ("ticker", "NagString(32)"), ("fiid", "String(32)"),
     ("rating", "String(10)"), ("unitprice", "Decimal()"),
     ("dtasof", "DateTime()"), ("memo", "String(255)")]
  | "DEBTINFO" =>
    [("parvalue", "Decimal(required=True)"),
     ("debttype", "OneOf('COUPON', 'ZERO', required=True)"),
     ("debtclass", "OneOf('TREASURY', 'MUNICIPAL', 'CORPORATE', 'OTHER')"),
     ("couponrt", "Decimal(4)"), ("dtcoupon", "DateTime()"),
     ("couponfreq",
      "OneOf('MONTHLY', 'QUARTERLY', 'SEMIANNUAL', 'ANNUAL', 'OTHER')"),
     ("callprice", "Decimal(4)"), ("yieldtocall", "Decimal(4)"),
     ("dtcall", "DateTime()"),
     ("calltype", "OneOf('CALL', 'PUT', 'PREFUND', 'MATURITY')"),
     ("yieldtomat", "Decimal(4)"), ("dtmat", "DateTime()"),
     ("assetclass", "OneOf(*ASSETCLASSES)"), ("fiassetclass", "String(32)")]
  | "MFINFO" =>
    [("mftype", "OneOf('OPENEND', 'CLOSEEND', 'OTHER')"),
     ("yld", "Decimal(4)"), ("dtyieldasof", "DateTime()")]
  | "PORTION" =>
    [("assetclass", "OneOf(*ASSETCLASSES, required=True)"),
     ("percent", "Decimal(required=True)")]
  | "FIPORTION" =>
    [("fiassetclass", "String(32, required=True)"),
     ("percent", "Decimal(required=True)")]
  | "OPTINFO" =>
    [("opttype", "OneOf('CALL', 'PUT', required=True)"),
     ("strikeprice", "Decimal(required=True)"),
     ("dtexpire", "DateTime(required=True)"),
     ("shperctrct", "Integer(required=True)"),
     ("assetclass", "OneOf(*ASSETCLASSES)"), ("fiassetclass", "String(32)")]
  | "OTHERINFO" =>
    [("typedesc", "String(32)"), ("assetclass", "OneOf(*ASSETCLASSES)"),
     ("fiassetclass", "String(32)")]
  | "STOCKINFO" =>
    [("stocktype", "OneOf('COMMON', 'PREFERRED', 'CONVERTIBLE', 'OTHER')"),
     ("yld", "Decimal(4)"), ("dtyieldasof", "DateTime()"),
     ("typedesc", "String(32)"), ("assetclass", "OneOf(*ASSETCLASSES)"),
     ("fiassetclass", "String(32)")]
  | "PAYEE" =>
    [("name", "NagString(32, required=True)"),
     ("addr1", "String(32, required=True)"), ("addr2", "String(32)"),
     ("addr3", "String(32)"), ("city", "String(32, required=True)"),
     ("state", "String(5, required=True)"),
     ("postalcode", "String(11, required=True)"),
     ("country", "OneOf(*COUNTRY_CODES)"),
     ("phone", "String(32, required=True)")]
  | "TRAN" =>
    [("fitid", "String(255, required=True)"), ("srvrtid", "String(10)")]
  | "STMTTRN" =>
    [("trntype", "OneOf(..., required=True)"),
     ("dtposted", "DateTime(required=True)"), ("dtuser", "DateTime()"),
     ("dtavail", "DateTime()"), ("trnamt", "Decimal(required=True)"),
     ("correctfitid", "Decimal()"),
     ("correctaction", "OneOf('REPLACE', 'DELETE')"),
     ("checknum", "String(12)"), ("refnum", "String(32)"),
     ("sic", "Integer()"), ("payeeid", "String(12)"),
     ("name", "String(32)"), ("memo", "String(255)"),
     ("inv401ksource", "OneOf(*INV401KSOURCES)")]
  | "INVBANKTRAN" => [("subacctfund", "OneOf(*INVSUBACCTS, required=True)")]
  | "INVTRAN" =>
    [("dttrade", "DateTime(required=True)"), ("dtsettle", "DateTime()"),
     ("reversalfitid", "String(255)"), ("memo", "String(255)")]
  | "INVBUY" =>
    [("units", "Decimal(required=True)"),
     ("unitprice", "Decimal(4, required=True)"), ("markup", "Decimal()"),
     ("commission", "Decimal()"), ("taxes", "Decimal()"),
     ("fees", "Decimal()"), ("load", "Decimal()"),
     ("total", "Decimal(required=True)"),
     ("subacctsec", "OneOf(*INVSUBACCTS, required=True)"),
     ("subacctfund", "OneOf(*INVSUBACCTS, required=True)"),
     ("loanid", "String(32)"), ("loanprincipal", "Decimal()"),
     ("loaninterest", "Decimal()"),
     ("inv401ksource", "OneOf(*INV401KSOURCES)"),
     ("dtpayroll", "DateTime()"), ("prioryearcontrib", "Bool()")]
  | "INVSELL" =>
    [("units", "Decimal(required=True)"),
     ("unitprice", "Decimal(4, required=True)"), ("markdown", "Decimal()"),
     ("commission", "Decimal()"), ("taxes", "Decimal()"),
     ("fees", "Decimal()"), ("load", "Decimal()"),
     ("withholding", "Decimal()"), ("taxexempt", "Bool()"),
     ("total", "Decimal(required=True)"), ("gain", "Decimal()"),
     ("subacctsec", "OneOf(*INVSUBACCTS, required=True)"),
     ("subacctfund", "OneOf(*INVSUBACCTS, required=True)"),
     ("loanid", "String(32)"), ("statewithholding", "Decimal()"),
     ("penalty", "Decimal()"), ("inv401ksource", "OneOf(*INV401KSOURCES)")]
  | "BUYDEBT" => [("accrdint", "Decimal()")]
  | "BUYMF" =>
    [("buytype", "OneOf(*BUYTYPES, required=True)"),
     ("relfitid", "String(255)")]
  | "BUYOPT" =>
    [("optbuytype", "OneOf('BUYTOOPEN', 'BUYTOCLOSE', required=True)"),
     ("shperctrct", "Integer(required=True)")]
  | "BUYSTOCK" => [("buytype", "OneOf(*BUYTYPES, required=True)")]
  | "CLOSUREOPT" =>
    [("optaction", "OneOf('EXERCISE', 'ASSIGN', 'EXPIRE')"),
     ("units", "Decimal(required=True)"),
     ("shperctrct", "Integer(required=True)"),
     ("subacctsec", "OneOf(*INVSUBACCTS, required=True)"),
     ("relfitid", "String(255)"), ("gain", "Decimal()")]
  | "INCOME" =>
    [("incometype", "OneOf(*INCOMETYPES, required=True)"),
     ("total", "Decimal(required=True)"),
     ("subacctsec", "OneOf(*INVSUBACCTS, required=True)"),
     ("subacctfund", "OneOf(*INVSUBACCTS, required=True)"),
     ("taxexempt", "Bool()"), ("withholding", "Decimal()"),
     ("inv401ksource", "OneOf(*INV401KSOURCES)")]
  | "INVEXPENSE" =>
    [("total", "Decimal(required=True)"),
     ("subacctsec", "OneOf(*INVSUBACCTS, required=True)"),
     ("subacctfund", "OneOf(*INVSUBACCTS, required=True)"),
     ("inv401ksource", "OneOf(*INV401KSOURCES)")]
  | "JRNLFUND" =>
    [("subacctto", "OneOf(*INVSUBACCTS, required=True)"),
     ("subacctfrom", "OneOf(*INVSUBACCTS, required=True)"),
     ("total", "Decimal(required=True)")]
  | "JRNLSEC" =>
    [("subacctto", "OneOf(*INVSUBACCTS, required=True)"),
     ("subacctfrom", "OneOf(*INVSUBACCTS, required=True)"),
     ("units", "Decimal(required=True)")]
  | "MARGININTEREST" =>
    [("total", "Decimal(required=True)"),
     ("subacctfund", "OneOf(*INVSUBACCTS, required=True)")]
  | "REINVEST" =>
    [("incometype", "OneOf(*INCOMETYPES, required=True)"),
     ("total", "Decimal(required=True)"),
     ("subacctsec", "OneOf(*INVSUBACCTS, required=True)"),
     ("units", "Decimal(required=True)"),
     ("unitprice", "Decimal(4, required=True)"),
     ("commission", "Decimal()"), ("taxes", "Decimal()"),
     ("fees", "Decimal()"), ("load", "Decimal()"), ("taxexempt", "Bool()"),
     ("inv401ksource", "OneOf(*INV401KSOURCES)")]
  | "RETOFCAP" =>
    [("total", "Decimal(required=True)"),
     ("subacctsec", "OneOf(*INVSUBACCTS, required=True)"),
     ("subacctfund", "OneOf(*INVSUBACCTS, required=True)"),
     ("inv401ksource", "OneOf(*INV401KSOURCES)")]
  | "SELLDEBT" =>
    [("sellreason", "OneOf('CALL', 'SELL', 'MATURITY', required=True)"),
     ("accrdint", "Decimal()")]
  | "SELLMF" =>
    [("selltype", "OneOf(*SELLTYPES, required=True)"),
     ("avgcostbasis", "Decimal()"), ("relfitid", "String(255)")]
  | "SELLOPT" =>
    [("optselltype", "OneOf('SELLTOCLOSE', 'SELLTOOPEN', required=True)"),
     ("shperctrct", "Integer(required=True)"),
     ("relfitid", "String(255)"),
     ("reltype", "OneOf('SPREAD', 'STRADDLE', 'NONE', 'OTHER')"),
     ("secured", "OneOf('NAKED', 'COVERED')")]
  | "SELLSTOCK" => [("selltype", "OneOf(*SELLTYPES, required=True)")]
  | "SPLIT" =>
    [("subacctsec", "OneOf(*INVSUBACCTS, required=True)"),
     ("oldunits", "Decimal(required=True)"),
     ("newunits", "Decimal(required=True)"),
     ("numerator", "Decimal(required=True)"),
     ("denominator", "Decimal(required=True)"), ("fraccash", "Decimal()"),
     ("subacctfund", "OneOf(*INVSUBACCTS)"),
     ("inv401ksource", "OneOf(*INV401KSOURCES)")]
  | "TRANSFER" =>
    [("subacctsec", "OneOf(*INVSUBACCTS, required=True)"),
     ("units", "Decimal(required=True)"),
     ("tferaction", "OneOf('IN', 'OUT', required=True)"),
     ("postype", "OneOf('SHORT', 'LONG', required=True)"),
     ("avgcostbasis", "Decimal()"), ("unitprice", "Decimal()"),
     ("dtpurchase", "DateTime()"),
     ("inv401ksource", "OneOf(*INV401KSOURCES)")]
  | "INVPOS" =>
    [("heldinacct", "OneOf(*INVSUBACCTS, required=True)"),
     ("postype", "OneOf('SHORT', 'LONG', required=True)"),
     ("units", "Decimal(required=True)"),
     ("unitprice", "Decimal(4, required=True)"),
     ("mktval", "Decimal(required=True)"),
     ("dtpriceasof", "DateTime(required=True)"), ("memo", "String(255)"),
     ("inv401ksource", "OneOf(*INV401KSOURCES)")]
  | "POSMF" =>
    [("unitsstreet", "Decimal()"), ("unitsuser", "Decimal()"),
     ("reinvdiv", "Bool()"), ("reinvcg", "Bool()")]
  | "POSOPT" => [("secured", "OneOf('NAKED', 'COVERED')")]
  | "POSSTOCK" =>
    [("unitsstreet", "Decimal()"), ("unitsuser", "Decimal()"),
     ("reinvdiv", "Bool()")]
  | _ => []

/-- Python `cls.__mro__` for each class in models.py (most derived first,
ending at `Aggregate`; `object` contributes nothing and is omitted).
These linearizations follow directly from the class headers. -/
def mroOf : String → List String
  | "Aggregate" => ["Aggregate"]
  | "FI" => ["FI", "Aggregate"]
  | "STATUS" => ["STATUS", "Aggregate"]
  | "SONRS" => ["SONRS", "FI", "STATUS", "Aggregate"]
  | "CURRENCY" => ["CURRENCY", "Aggregate"]
  | "ORIGCURRENCY" => ["ORIGCURRENCY", "CURRENCY", "Aggregate"]
  | "ACCTFROM" => ["ACCTFROM", "Aggregate"]
  | "BANKACCTFROM" => ["BANKACCTFROM", "ACCTFROM", "Aggregate"]
  | "BANKACCTTO" => ["BANKACCTTO", "BANKACCTFROM", "ACCTFROM", "Aggregate"]
  | "CCACCTFROM" => ["CCACCTFROM", "ACCTFROM", "Aggregate"]
  | "CCACCTTO" => ["CCACCTTO", "CCACCTFROM", "ACCTFROM", "Aggregate"]
  | "INVACCTFROM" => ["INVACCTFROM", "ACCTFROM", "Aggregate"]
  | "LEDGERBAL" => ["LEDGERBAL", "Aggregate"]
  | "AVAILBAL" => ["AVAILBAL", "Aggregate"]
  | "INVBAL" => ["INVBAL", "Aggregate"]
  | "BAL" => ["BAL", "CURRENCY", "Aggregate"]
  | "SECID" => ["SECID", "Aggregate"]
  | "SECINFO" => ["SECINFO", "CURRENCY", "SECID", "Aggregate"]
  | "DEBTINFO" => ["DEBTINFO", "SECINFO", "CURRENCY", "SECID", "Aggregate"]
  | "MFINFO" => ["MFINFO", "SECINFO", "CURRENCY", "SECID", "Aggregate"]
  | "PORTION" => ["PORTION", "Aggregate"]
  | "FIPORTION" => ["FIPORTION", "Aggregate"]
  | "OPTINFO" => ["OPTINFO", "SECINFO", "CURRENCY", "SECID", "Aggregate"]
  | "OTHERINFO" => ["OTHERINFO", "SECINFO", "CURRENCY", "SECID", "Aggregate"]
  | "STOCKINFO" => ["STOCKINFO", "SECINFO", "CURRENCY", "SECID", "Aggregate"]
  | "PAYEE" => ["PAYEE", "Aggregate"]
  | "TRAN" => ["TRAN", "Aggregate"]
  | "STMTTRN" =>
    ["STMTTRN", "TRAN", "ORIGCURRENCY", "CURRENCY", "Aggregate"]
  | "INVBANKTRAN" =>
    ["INVBANKTRAN", "STMTTRN", "TRAN", "ORIGCURRENCY", "CURRENCY",
     "Aggregate"]
  | "INVTRAN" => ["INVTRAN", "TRAN", "Aggregate"]
  | "INVBUY" =>
    ["INVBUY", "INVTRAN", "TRAN", "SECID", "ORIGCURRENCY", "CURRENCY",
     "Aggregate"]
  | "INVSELL" =>
    ["INVSELL", "INVTRAN", "TRAN", "SECID", "ORIGCURRENCY", "CURRENCY",
     "Aggregate"]
  | "BUYDEBT" =>
    ["BUYDEBT", "INVBUY", "INVTRAN", "TRAN", "SECID", "ORIGCURRENCY",
     "CURRENCY", "Aggregate"]
  | "BUYMF" =>
    ["BUYMF", "INVBUY", "INVTRAN", "TRAN", "SECID", "ORIGCURRENCY",
     "CURRENCY", "Aggregate"]
  | "BUYOPT" =>
    ["BUYOPT", "INVBUY", "INVTRAN", "TRAN", "SECID", "ORIGCURRENCY",
     "CURRENCY", "Aggregate"]
  | "BUYOTHER" =>
    ["BUYOTHER", "INVBUY", "INVTRAN", "TRAN", "SECID", "ORIGCURRENCY",
     "CURRENCY", "Aggregate"]
  | "BUYSTOCK" =>
    ["BUYSTOCK", "INVBUY", "INVTRAN", "TRAN", "SECID", "ORIGCURRENCY",
     "CURRENCY", "Aggregate"]
  | "CLOSUREOPT" =>
    ["CLOSUREOPT", "INVTRAN", "TRAN", "SECID", "Aggregate"]
  | "INCOME" =>
    ["INCOME", "INVTRAN", "TRAN", "SECID", "ORIGCURRENCY", "CURRENCY",
     "Aggregate"]
  | "INVEXPENSE" =>
    ["INVEXPENSE", "INVTRAN", "TRAN", "SECID", "ORIGCURRENCY", "CURRENCY",
     "Aggregate"]
  | "JRNLFUND" => ["JRNLFUND", "INVTRAN", "TRAN", "Aggregate"]
  | "JRNLSEC" => ["JRNLSEC", "INVTRAN", "TRAN", "SECID", "Aggregate"]
  | "MARGININTEREST" =>
    ["MARGININTEREST", "INVTRAN", "TRAN", "ORIGCURRENCY", "CURRENCY",
     "Aggregate"]
  | "REINVEST" =>
    ["REINVEST", "INVTRAN", "TRAN", "SECID", "ORIGCURRENCY", "CURRENCY",
     "Aggregate"]
  | "RETOFCAP" =>
    ["RETOFCAP", "INVTRAN", "TRAN", "SECID", "ORIGCURRENCY", "CURRENCY",
     "Aggregate"]
  | "SELLDEBT" =>
    ["SELLDEBT", "INVSELL", "INVTRAN", "TRAN", "SECID", "ORIGCURRENCY",
     "CURRENCY", "Aggregate"]
  | "SELLMF" =>
    ["SELLMF", "INVSELL", "INVTRAN", "TRAN", "SECID", "ORIGCURRENCY",
     "CURRENCY", "Aggregate"]
  | "SELLOPT" =>
    ["SELLOPT", "INVSELL", "INVTRAN", "TRAN", "SECID", "ORIGCURRENCY",
     "CURRENCY", "Aggregate"]
  | "SELLOTHER" =>
    ["SELLOTHER", "INVSELL", "INVTRAN", "TRAN", "SECID", "ORIGCURRENCY",
     "CURRENCY", "Aggregate"]
  | "SELLSTOCK" =>
    ["SELLSTOCK", "INVSELL", "INVTRAN", "TRAN", "SECID", "ORIGCURRENCY",
     "CURRENCY", "Aggregate"]
  | "SPLIT" => ["SPLIT", "INVTRAN", "TRAN", "SECID", "Aggregate"]
  | "TRANSFER" => ["TRANSFER", "INVTRAN", "TRAN", "SECID", "Aggregate"]
  | "INVPOS" => ["INVPOS", "SECID", "CURRENCY", "Aggregate"]
  | "POSDEBT" => ["POSDEBT", "INVPOS", "SECID", "CURRENCY", "Aggregate"]
  | "POSMF" => ["POSMF", "INVPOS", "SECID", "CURRENCY", "Aggregate"]
  | "POSOPT" => ["POSOPT", "INVPOS", "SECID", "CURRENCY", "Aggregate"]
  | "POSOTHER" => ["POSOTHER", "INVPOS", "SECID", "CURRENCY", "Aggregate"]
  | "POSSTOCK" => ["POSSTOCK", "INVPOS", "SECID", "CURRENCY", "Aggregate"]
  | _ => []

/-- The class names defined at module level in models.py: the names
that `globals()[elem.tag]` can resolve to an `Aggregate` subclass. -/
def registryTags : List String :=
  ["Aggregate", "FI", "STATUS", "SONRS", "CURRENCY", "ORIGCURRENCY",
   "ACCTFROM", "BANKACCTFROM", "BANKACCTTO", "CCACCTFROM", "CCACCTTO",
   "INVACCTFROM", "LEDGERBAL", "AVAILBAL", "INVBAL", "BAL", "SECID",
   "SECINFO", "DEBTINFO", "MFINFO", "PORTION", "FIPORTION", "OPTINFO",
   "OTHERINFO", "STOCKINFO", "PAYEE", "TRAN", "STMTTRN", "INVBANKTRAN",
   "INVTRAN", "INVBUY", "INVSELL", "BUYDEBT", "BUYMF", "BUYOPT",
   "BUYOTHER", "BUYSTOCK", "CLOSUREOPT", "INCOME", "INVEXPENSE",
   "JRNLFUND", "JRNLSEC", "MARGININTEREST", "REINVEST", "RETOFCAP",
   "SELLDEBT", "SELLMF", "SELLOPT", "SELLOTHER", "SELLSTOCK", "SPLIT",
   "TRANSFER", "INVPOS", "POSDEBT", "POSMF", "POSOPT", "POSOTHER",
   "POSSTOCK"]

/-- A field descriptor, identified by its declaring class together with
its literal source text (the proxy for Python object identity). -/
abbrev Descr := String × String

/-- Source `Aggregate.elements`: `d = {}` then `for m in cls.__mro__:
d.update({k: v for k, v in m.__dict__.items() if isinstance(v, Element)})`.
The MRO is walked most-derived first and `dict.update` overwrites, so a
later (more basic) class's descriptor replaces an earlier one under the
same name. -/
def elements (cls : String) : List (String × Descr) :=
  (mroOf cls).foldl
    (fun d m => updMany d ((ownElems m).map (fun kv => (kv.1, (m, kv.2)))))
    []

/-- The composed field-name set of a class, in mapping order. -/
def fieldNames (cls : String) : List String :=
  (elements cls).map (fun kv => kv.1)

/-- The declaration that plain Python attribute lookup would find: the
descriptor of the first (most specific) class in the MRO that declares
the name. -/
def firstDecl : List String → String → Option Descr
  | [], _ => none
  | m :: rest, fname =>
    match List.lookup fname (ownElems m) with
    | some k => some (m, k)
    | none => firstDecl rest fname

/-- One pass of `Aggregate._flatten`'s `for child in element` loop, with
the recursive call on sub-aggregates supplied as `recurse` (the engine
passes `flattenF fuel`).  Follows the source statement by statement:
a child whose stripped text is non-empty is a data-bearing leaf
(`assert tag not in leaves`, then silently drop dotted private tags,
else `leaves[tag.lower()] = data`); otherwise it is an aggregate
(`assert tag not in aggs`, then `aggs.update(recurse(child))`). -/
def goChildren (recurse : RawElem → Except DErr (List (String × String))) :
    List RawElem → List (String × String) → List (String × String) →
    Except DErr (List (String × String) × List (String × String))
  | [], aggs, leaves => .ok (aggs, leaves)
  | c :: cs, aggs, leaves =>
    let tag := c.tag
    let data := stripStr (c.text.getD "")
    if data = "" then
      if containsD aggs tag then .error .assertionError
      else
        match recurse c with
        | .error e => .error e
        | .ok sub => goChildren recurse cs (updMany aggs sub) leaves
    else
      if containsD leaves tag then .error .assertionError
      else
        let leaves' := if hasDot tag then leaves
                       else upd leaves (lowerString tag) data
        goChildren recurse cs aggs leaves'

/-- Source `Aggregate._flatten`: recurse through an aggregate and flatten,
returning an un-nested mapping from lowercase tag to stripped text.
After the child loop, `for key in aggs.keys(): assert key not in leaves`
then `leaves.update(aggs)`. -/
def flattenF : Nat → RawElem → Except DErr (List (String × String))
  | 0, _ => .error .recursionLimit
  | fuel + 1, e =>
    match goChildren (flattenF fuel) e.children [] [] with
    | .error err => .error err
    | .ok (aggs, leaves) =>
      if aggs.any (fun kv => containsD leaves kv.1) then
        .error .assertionError
      else
        .ok (updMany leaves aggs)

/-- Python `elem.find(tag)` / `elem.find('./TAG')`: the first direct child with
the given tag, in document order. -/
def findChild (t : String) (e : RawElem) : Option RawElem :=
  e.children.find? (fun c => c.tag == t)

/-- Python `elem.find('*/TAG')`: the first grandchild with the given tag, in
document order. -/
def findGrandchild (t : String) (e : RawElem) : Option RawElem :=
  e.children.findSome? (fun c => c.children.find? (fun g => g.tag == t))

/-- Python `elem.remove(x)` where `x` was obtained by `elem.find(tag)`:
removes the first direct child carrying the tag. -/
def removeFirstAux (t : String) : List RawElem → List RawElem
  | [] => []
  | c :: cs => if c.tag == t then cs else c :: removeFirstAux t cs

def removeFirstChild (t : String) (e : RawElem) : RawElem :=
  .mk e.tag e.text (removeFirstAux t e.children)

/-- Assignment `yld.tag = 'YLD'` applied to the result of `elem.find('./YIELD')`:
retag the first direct child tagged YIELD (text and children kept). -/
def renameFirst : List RawElem → List RawElem
  | [] => []
  | c :: cs =>
    if c.tag == "YIELD" then .mk "YLD" c.text c.children :: cs
    else c :: renameFirst cs

def renameYield (e : RawElem) : RawElem :=
  .mk e.tag e.text (renameFirst e.children)

/-- The `dual_relationships` list hard-coded in `Aggregate._groom`:
one global list, not indexed by the parent's tag. -/
def dualPairs : List (String × String) :=
  [("CCACCTTO", "BANKACCTTO"), ("NAME", "PAYEE"),
   ("CURRENCY", "ORIGCURRENCY")]

/-- The `for dual_relationships in [...]` loop of `Aggregate._groom`:
raise `ValueError` at the first pair whose two members are both present
as direct children. -/
def checkPairsAux (e : RawElem) : List (String × String) → Except DErr Unit
  | [] => .ok ()
  | (a, b) :: rest =>
    if (findChild a e).isSome && (findChild b e).isSome then
      .error (.mutuallyExclusive e.tag a b)
    else checkPairsAux e rest

/-- Source `Aggregate._groom`: first rename the (at most one, first) direct
YIELD child to YLD, then run the mutually-exclusive-pair check; the
(mutated) element flows on to the rest of `from_etree`. -/
def groom (e : RawElem) : Except DErr RawElem :=
  let e2 := renameYield e
  match checkPairsAux e2 dualPairs with
  | .error err => .error err
  | .ok _ => .ok e2

/-- Variant of `_groom` without the YIELD renaming: used to state that `groom` is
exactly rename-then-check. -/
def pairCheckOnly (e : RawElem) : Except DErr RawElem :=
  match checkPairsAux e dualPairs with
  | .error err => .error err
  | .ok _ => .ok e

/-- The typed, validated output instance: its class name, one attribute
slot per composed field (plus any attribute assigned by
`_postflatten`), and the nested records attached by `_postflatten`.
`none` in a slot is Python `None` (the unset default). -/
inductive Record : Type where
  | mk (cls : String) (attrs : List (String × Option String))
       (subs : List (String × Record))

def Record.cls : Record → String
  | .mk c _ _ => c

def Record.attrs : Record → List (String × Option String)
  | .mk _ a _ => a

def Record.subs : Record → List (String × Record)
  | .mk _ _ s => s

/-- Python `setattr(instance, name, value)` for a scalar value. -/
def setattrA (r : Record) (k : String) (v : Option String) : Record :=
  .mk r.cls (upd r.attrs k v) r.subs

/-- Source `Aggregate.__init__(**kwargs)`: pop each composed field name from
the kwargs (missing keys default to `None`), then fail if any kwargs
remain, naming the class and listing the unclaimed keys.  The
descriptor `__set__` validation lives in ofxtools.Types, outside this
repository slice; `setattr` is modelled as storing the raw value. -/
def mkAggregate (cls : String) (kwargs : List (String × String)) :
    Except DErr Record :=
  let attrs := (fieldNames cls).map (fun n => (n, List.lookup n kwargs))
  let rest := kwargs.filter (fun kv => !((fieldNames cls).contains kv.1))
  if rest.isEmpty then .ok (.mk cls attrs [])
  else .error (.undefinedElements cls (rest.map (fun kv => kv.1)))

/-- Python truthiness of an `ElementTree.Element`: true iff it has
children; `a or b` returns `a` when `a` is truthy, else `b` (and `None`
is falsy). -/
def pyOrElem (a b : Option RawElem) : Option RawElem :=
  match a with
  | some x => if x.children.isEmpty then b else a
  | none => b

/-- Source `ORIGCURRENCY._preflatten`: look for `*/CURRENCY` or
`*/ORIGCURRENCY` (grandchild search) and, when found, record the found
element's `.text` under the synthetic `curtype` attribute (after the
`assert 'curtype' not in attr`).  The element tree is not modified. -/
def preflattenORIGCURRENCY (e : RawElem) :
    Except DErr ((List (String × Option String) × List (String × RawElem)) × RawElem) :=
  let attr : List (String × Option String) := []
  let curtype :=
    pyOrElem (findGrandchild "CURRENCY" e) (findGrandchild "ORIGCURRENCY" e)
  match curtype with
  | some found =>
    if containsD attr "curtype" then .error .assertionError
    else .ok ((upd attr "curtype" found.text, []), e)
  | none => .ok ((attr, []), e)

/-- Source `STMTTRN._preflatten`: run the ORIGCURRENCY hook (the `super()`
call resolves there through STMTTRN's MRO), then pull out each of
CCACCTTO, BANKACCTTO, PAYEE as a side-subaggregate, removing it from
the tree. -/
def preflattenSTMTTRN (e : RawElem) :
    Except DErr ((List (String × Option String) × List (String × RawElem)) × RawElem) :=
  match preflattenORIGCURRENCY e with
  | .error err => .error err
  | .ok ((attrs, subaggs), e) =>
    let step := fun (st : List (String × RawElem) × RawElem) (tag : String) =>
      match findChild tag st.2 with
      | some found => (upd st.1 tag found, removeFirstChild tag st.2)
      | none => st
    let fin := ["CCACCTTO", "BANKACCTTO", "PAYEE"].foldl step (subaggs, e)
    .ok ((attrs, fin.1), fin.2)

/-- Source `MFINFO._preflatten`: strip MFASSETCLASS / FIMFASSETCLASS (both
XPath searches run before either removal) and hand them back as
side-subaggregates. -/
def preflattenMFINFO (e : RawElem) :
    Except DErr ((List (String × Option String) × List (String × RawElem)) × RawElem) :=
  let mfassetclass := findChild "MFASSETCLASS" e
  let fimfassetclass := findChild "FIMFASSETCLASS" e
  let (subaggs, e) :=
    match mfassetclass with
    | some found =>
      (upd ([] : List (String × RawElem)) "MFASSETCLASS" found,
       removeFirstChild "MFASSETCLASS" e)
    | none => ([], e)
  let (subaggs, e) :=
    match fimfassetclass with
    | some found =>
      (upd subaggs "FIMFASSETCLASS" found, removeFirstChild "FIMFASSETCLASS" e)
    | none => (subaggs, e)
  .ok (([], subaggs), e)

/-- Source `OPTINFO._preflatten`: strip the direct SECID child (the identifier
of the underlying security) so it does not overwrite the option's own
SECID during `_flatten`; it is discarded, not handed back. -/
def preflattenOPTINFO (e : RawElem) :
    Except DErr ((List (String × Option String) × List (String × RawElem)) × RawElem) :=
  match findChild "SECID" e with
  | some _ => .ok (([], []), removeFirstChild "SECID" e)
  | none => .ok (([], []), e)

/-- The classes that define a `_preflatten` of their own.  Attribute
lookup `SubClass._preflatten` resolves to the first of these in the
subclass's MRO (falling back to `Aggregate`'s no-op). -/
def hookDefiners : List String :=
  ["STMTTRN", "ORIGCURRENCY", "MFINFO", "OPTINFO", "Aggregate"]

/-- Lookup of `SubClass._preflatten(elem)` as dispatched through the MRO. -/
def preflattenDispatch (cls : String) (e : RawElem) :
    Except DErr ((List (String × Option String) × List (String × RawElem)) × RawElem) :=
  match (mroOf cls).find? (fun m => hookDefiners.contains m) with
  | some "STMTTRN" => preflattenSTMTTRN e
  | some "ORIGCURRENCY" => preflattenORIGCURRENCY e
  | some "MFINFO" => preflattenMFINFO e
  | some "OPTINFO" => preflattenOPTINFO e
  | _ => .ok (([], []), e)

/-- Source `Aggregate._postflatten(instance, attrs, subaggs)`: assign each
side-attribute, then decode each side-subaggregate with the full
pipeline (`recurse` is `from_etree` at the remaining stack depth) and
attach it under the lowercased tag.  Every hook in models.py stores
single elements in `subaggs`, so only the `ET.Element` branch of the
source is reachable (its list branch is dead here — and would decode
the list object itself, its loop variable `e` being unused). -/
def postflattenRun (recurse : RawElem → Except DErr Record)
    (inst : Record) (attrs : List (String × Option String))
    (subaggs : List (String × RawElem)) : Except DErr Record :=
  let inst := attrs.foldl (fun r kv => setattrA r kv.1 kv.2) inst
  subaggs.foldl
    (fun acc kv =>
      match acc with
      | .error err => .error err
      | .ok r =>
        match recurse kv.2 with
        | .error err => .error err
        | .ok sub => .ok (.mk r.cls r.attrs (upd r.subs (lowerString kv.1) sub)))
    (.ok inst)

/-- Source `Aggregate.from_etree(elem)`: groom, look the tag up in the module
namespace (KeyError if absent), run the subclass's pre-flatten hook,
flatten, instantiate, post-flatten.  The fuel argument models the
Python call stack consumed by the recursion into side-subaggregates. -/
def from_etree : Nat → RawElem → Except DErr Record
  | 0, _ => .error .recursionLimit
  | fuel + 1, e =>
    match groom e with
    | .error err => .error err
    | .ok e =>
      if !(registryTags.contains e.tag) then .error (.keyError e.tag)
      else
        match preflattenDispatch e.tag e with
        | .error err => .error err
        | .ok ((attrs, subaggs), e2) =>
          match flattenF (fuel + 1) e2 with
          | .error err => .error err
          | .ok attributes =>
            match mkAggregate e.tag attributes with
            | .error err => .error err
            | .ok inst => postflattenRun (from_etree fuel) inst attrs subaggs

/-- The value held by attribute `k` of the record decoded from `e`:
`.ok none` means decode succeeded but the record has no such attribute;
`.ok (some none)` means the slot exists and is unset (`None`). -/
def decodedField (fuel : Nat) (e : RawElem) (k : String) :
    Except DErr (Option (Option String)) :=
  match from_etree fuel e with
  | .error err => .error err
  | .ok r => .ok (List.lookup k r.attrs)

/-- The kwargs keys that no composed field of `cls` claims, in order:
exactly what `Aggregate.__init__` reports in its ValueError. -/
def unclaimedKeys (cls : String) (kwargs : List (String × String)) :
    List String :=
  (kwargs.filter (fun kv => !((fieldNames cls).contains kv.1))).map
    (fun kv => kv.1)

/-- A child survives vendor-private dropping unless it is a data-bearing
leaf (non-empty stripped text) whose tag contains a dot. -/
def keepChild (c : RawElem) : Bool :=
  stripStr (c.text.getD "") == "" || !(hasDot c.tag)

/-- Erase every data-bearing leaf with a dotted (vendor-private) tag, at
every nesting depth.  Used to state that such leaves are invisible to
`_flatten`. -/
def stripPrivateLeaves : RawElem → RawElem
  | .mk t x cs =>
    .mk t x ((cs.filter keepChild).attach.map
      (fun c => stripPrivateLeaves c.1))
termination_by e => sizeOf e
decreasing_by
  simp_wf
  have h1 := List.sizeOf_lt_of_mem (List.mem_of_mem_filter c.2)
  omega

/-- The child list of `stripPrivateLeaves`, as a plain map over a
filter. -/
def stripChildren (cs : List RawElem) : List RawElem :=
  (cs.filter keepChild).map stripPrivateLeaves

/-- Every key of the dict is free of the vendor-private separator. -/
def keysNoDot (d : List (String × String)) : Prop :=
  ∀ kv ∈ d, hasDot kv.1 = false

/-- The pairs of `dual_relationships` whose two members are both present
as direct children of `e`, in the order `_groom` tests them. -/
def violatedPairs (e : RawElem) : List (String × String) :=
  dualPairs.filter
    (fun p => (findChild p.1 e).isSome && (findChild p.2 e).isSome)

/-- C4 input: a bank-statement transaction whose foreign-currency
information arrives, as the OFX spec has it, in a CURRENCY
sub-aggregate that is a direct child of the transaction node. -/
def stmttrnCurrencyTree : RawElem :=
  .mk "STMTTRN" none
    [.mk "TRNTYPE" (some "CREDIT") [],
     .mk "DTPOSTED" (some "20230315") [],
     .mk "TRNAMT" (some "100.00") [],
     .mk "FITID" (some "4321") [],
     .mk "CURRENCY" none
      [.mk "CURSYM" (some "USD") [], .mk "CURRATE" (some "1.0") []]]

/-- C5 input: a mutual-fund security-information node whose asset-class
allocation arrives as an MFASSETCLASS list containing three PORTION
sub-aggregates. -/
def mfinfoAssetClassTree : RawElem :=
  .mk "MFINFO" none
    [.mk "SECNAME" (some "FUND") [],
     .mk "MFASSETCLASS" none
      [.mk "PORTION" none
        [.mk "ASSETCLASS" (some "DOMESTICBOND") [],
         .mk "PERCENT" (some "15") []],
       .mk "PORTION" none
        [.mk "ASSETCLASS" (some "LARGESTOCK") [],
         .mk "PERCENT" (some "60") []],
       .mk "PORTION" none
        [.mk "ASSETCLASS" (some "OTHER") [],
         .mk "PERCENT" (some "25") []]]]

/-- C10 input: a mutual-fund security-information node carrying a YIELD
leaf. -/
def mfinfoYieldTree : RawElem :=
  .mk "MFINFO" none
    [.mk "SECNAME" (some "X FUND") [],
     .mk "YIELD" (some "5.5") [],
     .mk "MFTYPE" (some "OPENEND") []]

/-- C8 input: an option-security node; the option's own identifier
lives inside its SECINFO wrapper, as the OFX spec has it. -/
def optinfoPlain : RawElem :=
  .mk "OPTINFO" none
    [.mk "SECINFO" none
      [.mk "SECID" none
        [.mk "UNIQUEID" (some "123456789") [],
         .mk "UNIQUEIDTYPE" (some "CUSIP") []],
       .mk "SECNAME" (some "WIDGET CALL") []],
     .mk "OPTTYPE" (some "CALL") [],
     .mk "STRIKEPRICE" (some "35.00") [],
     .mk "DTEXPIRE" (some "20240119") [],
     .mk "SHPERCTRCT" (some "100") []]

/-- C8 input: the same option-security node with, in addition, a SECID
sub-element referring to the underlying instrument as a direct child,
carrying arbitrary identifier values. -/
def optinfoWithUnderlying (u1 u2 : String) : RawElem :=
  .mk "OPTINFO" none
    [.mk "SECINFO" none
      [.mk "SECID" none
        [.mk "UNIQUEID" (some "123456789") [],
         .mk "UNIQUEIDTYPE" (some "CUSIP") []],
       .mk "SECNAME" (some "WIDGET CALL") []],
     .mk "OPTTYPE" (some "CALL") [],
     .mk "STRIKEPRICE" (some "35.00") [],
     .mk "DTEXPIRE" (some "20240119") [],
     .mk "SHPERCTRCT" (some "100") [],
     .mk "SECID" none
      [.mk "UNIQUEID" (some u1) [], .mk "UNIQUEIDTYPE" (some u2) []]]

/-- Lemma: `List.lookup` only returns pairs that are in the list. -/
theorem lookup_mem {β : Type} (l : List (String × β)) (k : String) (v : β)
    (h : List.lookup k l = some v) : (k, v) ∈ l := by
  induction l with
  | nil => simp [List.lookup] at h
  | cons a t ih =>
    match a with
    | (a1, a2) =>
      rw [List.lookup_cons] at h
      by_cases he : k == a1
      · rw [he] at h
        cases h
        have : k = a1 := eq_of_beq he
        subst this
        exact List.mem_cons_self _ _
      · rw [Bool.not_eq_true] at he
        rw [he] at h
        exact List.mem_cons_of_mem _ (ih h)

/-- C1: the claim says a flattened-name collision between two sibling
subtrees (or leaves) fails with a collision error naming the offending
tag.  The code does not: `_flatten` checks the raw (uppercase) child
tag against the lowercased keys accumulated so far, and merges sibling
sub-aggregates with `dict.update`, so the colliding contributions
silently overwrite.  At the very input `_flatten`'s docstring promises
to "blow up" on (BALAMT/DTASOF inside sibling LEDGERBAL and AVAILBAL),
flattening succeeds and returns the second sibling's values; likewise
two sibling BALAMT leaves succeed, keeping only the second. -/
theorem flatten_sibling_collision_silently_overwrites :
    flattenF 3 (.mk "STMTRS" none
      [.mk "LEDGERBAL" none
        [.mk "BALAMT" (some "100.00") [], .mk "DTASOF" (some "20230101") []],
       .mk "AVAILBAL" none
        [.mk "BALAMT" (some "200.00") [], .mk "DTASOF" (some "20230202") []]]) =
      .ok [("balamt", "200.00"), ("dtasof", "20230202")] ∧
    flattenF 2 (.mk "X" none
      [.mk "BALAMT" (some "1") [], .mk "BALAMT" (some "2") []]) =
      .ok [("balamt", "2")] := ⟨rfl, rfl⟩

/-- C4: decoding a transaction whose currency arrives in a CURRENCY
sub-aggregate leaves the `curtype` slot unset (`None`), even though the
currency's own fields (cursym/currate) were flattened onto the record:
`ORIGCURRENCY._preflatten` searches grandchildren (`*/CURRENCY`) while
the currency element is a direct child, and would store the found
element's `.text` (not its tag) anyway.  The claim — and the hook's own
docstring — require `curtype` to identify the sub-element used. -/
theorem stmttrn_curtype_not_synthesized :
    decodedField 2 stmttrnCurrencyTree "curtype" = .ok (some none) ∧
    decodedField 2 stmttrnCurrencyTree "cursym" = .ok (some (some "USD")) ∧
    decodedField 2 stmttrnCurrencyTree "currate" = .ok (some (some "1.0")) :=
  ⟨rfl, rfl, rfl⟩

/-- C5: decoding a mutual-fund node with an MFASSETCLASS list of three
PORTIONs does not attach a list of three Records: `_postflatten` feeds
the stripped MFASSETCLASS element back into `from_etree`, whose
`globals()[elem.tag]` lookup raises KeyError — no class MFASSETCLASS
exists in the module. -/
theorem mfinfo_assetclass_decode_keyerror :
    from_etree 3 mfinfoAssetClassTree = .error (.keyError "MFASSETCLASS") :=
  rfl

/-- C3 counterexample: the mutually-exclusive pairs are one global list
applied to every parent tag, not declared per parent tag: a balance
node (whose composed schema has neither a name nor a payee field)
containing NAME and PAYEE children is rejected by the very same check. -/
theorem pair_check_not_per_parent_tag :
    from_etree 2 (.mk "LEDGERBAL" none
      [.mk "NAME" (some "ACME") [],
       .mk "PAYEE" none [.mk "NAME" (some "ACME") []]]) =
      .error (.mutuallyExclusive "LEDGERBAL" "NAME" "PAYEE") ∧
    List.lookup "name" (elements "LEDGERBAL") = none ∧
    List.lookup "payee" (elements "LEDGERBAL") = none :=
  ⟨rfl, by decide, by decide⟩

/-- C6: `Aggregate.__init__` pops exactly the composed field names from
the kwargs; if keys remain it fails with one error naming the class and
listing all the unclaimed keys, and on success the record's attributes
are exactly the composed field names — an unclaimed key is never
silently dropped. -/
theorem aggregate_init_rejects_unclaimed_keys (cls : String)
    (kwargs : List (String × String)) :
    (unclaimedKeys cls kwargs ≠ [] →
      mkAggregate cls kwargs =
        .error (.undefinedElements cls (unclaimedKeys cls kwargs))) ∧
    (∀ r, mkAggregate cls kwargs = .ok r →
      r.attrs.map (fun kv => kv.1) = fieldNames cls ∧
      unclaimedKeys cls kwargs = []) := by
  constructor
  · intro hne
    have hfe :
        (kwargs.filter (fun kv => !((fieldNames cls).contains kv.1))).isEmpty
          = false := by
      rw [Bool.eq_false_iff]
      intro hh
      apply hne
      unfold unclaimedKeys
      rw [List.isEmpty_iff.mp hh]
      rfl
    simp only [mkAggregate, hfe, Bool.false_eq_true, if_false]
    rfl
  · intro r hr
    simp only [mkAggregate] at hr
    by_cases hfe :
        (kwargs.filter (fun kv => !((fieldNames cls).contains kv.1))).isEmpty
    · rw [if_pos hfe] at hr
      cases hr
      constructor
      · simp [Record.attrs, Function.comp_def]
      · unfold unclaimedKeys
        rw [List.isEmpty_iff.mp hfe]
        rfl
    · rw [if_neg hfe] at hr
      cases hr

/-- C6 witness: a balance record constructed from a mapping with two
unclaimed keys fails listing exactly those keys; constructed from a
claimed-only mapping, its attributes are exactly the schema's fields. -/
theorem aggregate_init_rejects_unclaimed_keys_witness :
    mkAggregate "LEDGERBAL" [("balamt", "1"), ("bogus", "2"), ("extra", "3")] =
      .error (.undefinedElements "LEDGERBAL" ["bogus", "extra"]) ∧
    (∀ r, mkAggregate "LEDGERBAL" [("balamt", "1")] = .ok r →
      r.attrs.map (fun kv => kv.1) = fieldNames "LEDGERBAL" ∧
      unclaimedKeys "LEDGERBAL" [("balamt", "1")] = []) :=
  ⟨(aggregate_init_rejects_unclaimed_keys "LEDGERBAL"
      [("balamt", "1"), ("bogus", "2"), ("extra", "3")]).1 (by decide),
   (aggregate_init_rejects_unclaimed_keys "LEDGERBAL" [("balamt", "1")]).2⟩

set_option maxRecDepth 40000 in
/-- C2: composing a type's field mapping is deterministic (it is a pure
function of the class and its MRO: two compositions are the same term),
and every surviving descriptor is the one plain attribute lookup would
find — the declaration of the most specific (first) class in the MRO
declaring that name.  The latter holds because no class in models.py
shares a field name with any of its ancestors; note the fold direction
(`d.update` over the MRO, most-derived first) would otherwise let the
least specific declaration win. -/
theorem elements_deterministic_and_most_specific :
    (∀ cls, cls ∈ registryTags → elements cls = elements cls) ∧
    (∀ cls, cls ∈ registryTags → ∀ fname d,
      List.lookup fname (elements cls) = some d →
      firstDecl (mroOf cls) fname = some d) := by
  constructor
  · intro cls _
    rfl
  · intro cls hc fname d hl
    have hall : (registryTags.all (fun c =>
        (elements c).all (fun kv =>
          firstDecl (mroOf c) kv.1 == some kv.2))) = true := by decide
    have h1 := List.all_eq_true.mp hall cls hc
    have h2 := List.all_eq_true.mp h1 (fname, d) (lookup_mem _ _ _ hl)
    exact eq_of_beq h2

set_option maxRecDepth 4000 in
/-- C2 witness: in STMTTRN's composed mapping, `curtype` resolves to
the declaration of ORIGCURRENCY, the first class in STMTTRN's MRO that
declares it. -/
theorem elements_deterministic_and_most_specific_witness :
    elements "STMTTRN" = elements "STMTTRN" ∧
    firstDecl (mroOf "STMTTRN") "curtype" =
      some ("ORIGCURRENCY", "OneOf('CURRENCY', 'ORIGCURRENCY')") :=
  ⟨(elements_deterministic_and_most_specific).1 "STMTTRN" (by decide),
   (elements_deterministic_and_most_specific).2 "STMTTRN" (by decide)
     "curtype" ("ORIGCURRENCY", "OneOf('CURRENCY', 'ORIGCURRENCY')")
     (by decide)⟩

/-- Lemma: `renameFirst` retags exactly the first YIELD child, leaving
everything before and after untouched. -/
theorem renameFirst_no_yield_append (pre post : List RawElem) (v : String)
    (h : ∀ c ∈ pre, c.tag ≠ "YIELD") :
    renameFirst (pre ++ .mk "YIELD" (some v) [] :: post) =
      pre ++ .mk "YLD" (some v) [] :: post := by
  induction pre with
  | nil =>
    simp [renameFirst, RawElem.tag, RawElem.text, RawElem.children]
  | cons c cs ih =>
    have hc : (c.tag == "YIELD") = false := by
      rw [beq_eq_false_iff_ne]
      exact h c (List.mem_cons_self _ _)
    simp only [List.cons_append, renameFirst, hc, Bool.false_eq_true,
      if_false, List.cons.injEq, true_and]
    exact ih (fun c' hc' => h c' (List.mem_cons_of_mem _ hc'))

set_option maxRecDepth 40000 in
/-- C10: `_groom` renames the first direct YIELD child to YLD (given no
earlier sibling is tagged YIELD) before the mutually-exclusive-pair
check runs — `groom` equals the pair check applied to the renamed tree;
consequently a YIELD leaf surfaces on the decoded record under `yld`
(shown on a mutual-fund node), no record attribute named `yield`
results, and indeed no class in the module composes a field named
`yield`. -/
theorem yield_renamed_before_pair_check (t : String) (x : Option String)
    (pre post : List RawElem) (v : String)
    (h : ∀ c ∈ pre, c.tag ≠ "YIELD") :
    groom (.mk t x (pre ++ .mk "YIELD" (some v) [] :: post)) =
      pairCheckOnly (.mk t x (pre ++ .mk "YLD" (some v) [] :: post)) ∧
    decodedField 2 mfinfoYieldTree "yld" = .ok (some (some "5.5")) ∧
    decodedField 2 mfinfoYieldTree "yield" = .ok none ∧
    (registryTags.all (fun cls =>
      (List.lookup "yield" (elements cls)).isNone)) = true := by
  refine ⟨?_, rfl, rfl, by decide⟩
  unfold groom pairCheckOnly renameYield
  rw [show (RawElem.mk t x (pre ++ .mk "YIELD" (some v) [] :: post)).children
        = pre ++ .mk "YIELD" (some v) [] :: post from rfl,
      renameFirst_no_yield_append pre post v h]
  rfl

/-- C10 witness: the rename-then-check equation at the concrete
mutual-fund node with a YIELD leaf, plus the decoded-field facts. -/
theorem yield_renamed_before_pair_check_witness :
    groom (.mk "MFINFO" none
      ([.mk "SECNAME" (some "X FUND") []] ++
        .mk "YIELD" (some "5.5") [] :: [.mk "MFTYPE" (some "OPENEND") []])) =
      pairCheckOnly (.mk "MFINFO" none
        ([.mk "SECNAME" (some "X FUND") []] ++
          .mk "YLD" (some "5.5") [] :: [.mk "MFTYPE" (some "OPENEND") []])) ∧
    decodedField 2 mfinfoYieldTree "yld" = .ok (some (some "5.5")) ∧
    decodedField 2 mfinfoYieldTree "yield" = .ok none ∧
    (registryTags.all (fun cls =>
      (List.lookup "yield" (elements cls)).isNone)) = true :=
  yield_renamed_before_pair_check "MFINFO" none
    [.mk "SECNAME" (some "X FUND") []] [.mk "MFTYPE" (some "OPENEND") []]
    "5.5" (by intro c hc; simp at hc; subst hc; decide)

/-- Lemma: `checkPairsAux` fails exactly at the first pair of the list whose
two members are both present, naming the parent and both members. -/
theorem checkPairsAux_first (e : RawElem) (ps : List (String × String)) :
    ∀ (a b : String) (rest : List (String × String)),
    ps.filter (fun p =>
      (findChild p.1 e).isSome && (findChild p.2 e).isSome) = (a, b) :: rest →
    checkPairsAux e ps = .error (.mutuallyExclusive e.tag a b) := by
  induction ps with
  | nil => intro a b rest h; simp at h
  | cons p ps ih =>
    intro a b rest h
    obtain ⟨p1, p2⟩ := p
    rw [List.filter_cons] at h
    by_cases hp : ((findChild p1 e).isSome && (findChild p2 e).isSome) = true
    · rw [if_pos hp] at h
      injection h with h1 h2
      injection h1 with ha hb
      subst ha
      subst hb
      unfold checkPairsAux
      rw [if_pos hp]
    · rw [if_neg hp] at h
      unfold checkPairsAux
      rw [if_neg hp]
      exact ih a b rest h

/-- C3 (amended): whenever a node contains both members of any pair of
the global `dual_relationships` list as direct children, `from_etree`
fails with the structural error naming the parent tag and both
conflicting children — at the first violated pair, in list order, and
before any flattening is attempted (the error is raised by `_groom`,
which `from_etree` runs first, for every remaining stack depth and
regardless of whether the tree could be flattened). -/
theorem mutually_exclusive_fails_before_flatten (fuel : Nat) (e : RawElem)
    (a b : String) (rest : List (String × String))
    (h : violatedPairs (renameYield e) = (a, b) :: rest) :
    from_etree (fuel + 1) e = .error (.mutuallyExclusive e.tag a b) := by
  have htag : (renameYield e).tag = e.tag := rfl
  have hg : groom e = .error (.mutuallyExclusive e.tag a b) := by
    unfold violatedPairs at h
    show (match checkPairsAux (renameYield e) dualPairs with
          | .error err => Except.error err
          | .ok _ => Except.ok (renameYield e)) =
      Except.error (.mutuallyExclusive e.tag a b)
    rw [checkPairsAux_first (renameYield e) dualPairs a b rest h, htag]
  simp only [from_etree]
  rw [hg]

/-- C3 witness: a transaction node holding both a credit-card
destination and a bank destination fails with the error naming the
parent and both children, at stack depth one. -/
theorem mutually_exclusive_fails_before_flatten_witness :
    from_etree 1 (.mk "STMTTRN" none
      [.mk "CCACCTTO" none [.mk "ACCTID" (some "111") []],
       .mk "BANKACCTTO" none [.mk "ACCTID" (some "222") []]]) =
      .error (.mutuallyExclusive "STMTTRN" "CCACCTTO" "BANKACCTTO") :=
  mutually_exclusive_fails_before_flatten 0
    (.mk "STMTTRN" none
      [.mk "CCACCTTO" none [.mk "ACCTID" (some "111") []],
       .mk "BANKACCTTO" none [.mk "ACCTID" (some "222") []]])
    "CCACCTTO" "BANKACCTTO" [] (by decide)

/-- Inserting under a fresh key appends to a Python dict. -/
theorem upd_of_not_contains {v : Type} (d : List (String × v)) (k : String)
    (x : v) (h : containsD d k = false) : upd d k x = d ++ [(k, x)] := by
  unfold upd
  rw [h]
  rfl

/-- The child loop of `_flatten` over leaf-only, fresh, dot-free,
lowercase-tagged children: no aggregate contributions, and the leaves
dict extends by one entry per child, in order. -/
theorem goChildren_flat_leaves
    (r : RawElem → Except DErr (List (String × String))) :
    ∀ (cs : List RawElem) (leaves : List (String × String)),
    (∀ c ∈ cs, c.children = [] ∧
      stripStr (c.text.getD "") = c.text.getD "" ∧ c.text.getD "" ≠ "" ∧
      hasDot c.tag = false ∧ lowerString c.tag = c.tag) →
    (∀ c ∈ cs, containsD leaves c.tag = false) →
    (cs.map RawElem.tag).Nodup →
    goChildren r cs [] leaves =
      .ok ([], leaves ++ cs.map (fun c => (c.tag, c.text.getD ""))) := by
  intro cs
  induction cs with
  | nil =>
    intro leaves _ _ _
    simp [goChildren]
  | cons c cs ih =>
    intro leaves hleaf hfresh hnodup
    obtain ⟨hch, hsv, hne, hdot, hlow⟩ := hleaf c (List.mem_cons_self _ _)
    rw [List.map_cons, List.nodup_cons] at hnodup
    unfold goChildren
    simp only [hsv, hne, if_false, hfresh c (List.mem_cons_self _ _),
      Bool.false_eq_true, hdot, hlow,
      upd_of_not_contains leaves c.tag (c.text.getD "")
        (hfresh c (List.mem_cons_self _ _))]
    rw [ih (leaves ++ [(c.tag, c.text.getD "")])
      (fun c' hc' => hleaf c' (List.mem_cons_of_mem _ hc'))
      (fun c' hc' => by
        unfold containsD
        rw [List.any_append]
        have h1 : leaves.any (fun kv => kv.1 == c'.tag) = false :=
          hfresh c' (List.mem_cons_of_mem _ hc')
        have h2 : (c.tag == c'.tag) = false := by
          rw [beq_eq_false_iff_ne]
          intro hEq
          exact hnodup.1 (hEq ▸ List.mem_map_of_mem RawElem.tag hc')
        simp [h1, h2])
      hnodup.2]
    rw [List.append_assoc]
    rfl

/-- C9: flattening a depth-1 tree whose children are data-bearing
leaves that already look like a flattened mapping (lowercase, dot-free,
pairwise distinct tags; whitespace-free non-empty text) returns exactly
the mapping the leaves represent, one entry per leaf in source order,
keyed by the leaf's tag and holding the leaf's text — flattening is
idempotent on already-flat input. -/
theorem flatten_idempotent_on_flat_tree (n : Nat) (t : String)
    (x : Option String) (cs : List RawElem)
    (h1 : ∀ c ∈ cs, c.children = [] ∧
      stripStr (c.text.getD "") = c.text.getD "" ∧ c.text.getD "" ≠ "" ∧
      hasDot c.tag = false ∧ lowerString c.tag = c.tag)
    (h2 : (cs.map RawElem.tag).Nodup) :
    flattenF (n + 1) (.mk t x cs) =
      .ok (cs.map (fun c => (c.tag, c.text.getD ""))) := by
  simp only [flattenF]
  rw [show (RawElem.mk t x cs).children = cs from rfl]
  rw [goChildren_flat_leaves (flattenF n) cs [] h1 (fun c _ => rfl) h2]
  rfl

/-- C9 witness: flattening an already-flat balance mapping returns it
unchanged. -/
theorem flatten_idempotent_on_flat_tree_witness :
    flattenF 1 (.mk "LEDGERBAL" none
      [.mk "balamt" (some "1234.56") [], .mk "dtasof" (some "20230101") []]) =
      .ok ([.mk "balamt" (some "1234.56") [],
            .mk "dtasof" (some "20230101") []].map
        (fun (c : RawElem) => (c.tag, c.text.getD ""))) :=
  flatten_idempotent_on_flat_tree 0 "LEDGERBAL" none
    [.mk "balamt" (some "1234.56") [], .mk "dtasof" (some "20230101") []]
    (by
      intro c hc
      simp only [List.mem_cons, List.not_mem_nil, or_false] at hc
      rcases hc with h | h <;> subst h <;>
        exact ⟨rfl, rfl, by decide, by decide, rfl⟩)
    (by decide)

/-- C8: decoding an option-security node that carries a SECID
sub-element for the underlying instrument as a direct child gives
exactly the record of the same node without it — the pre-flatten hook
removes it, whatever identifier values it carries, at every stack
depth — and that decode succeeds with the option's own identifier and
name fields intact. -/
theorem optinfo_underlying_secid_discarded :
    (∀ (fuel : Nat) (u1 u2 : String),
      from_etree fuel (optinfoWithUnderlying u1 u2) =
        from_etree fuel optinfoPlain) ∧
    (from_etree 3 optinfoPlain).isOk = true ∧
    decodedField 3 optinfoPlain "uniqueid" = .ok (some (some "123456789")) ∧
    decodedField 3 optinfoPlain "uniqueidtype" = .ok (some (some "CUSIP")) ∧
    decodedField 3 optinfoPlain "secname" =
      .ok (some (some "WIDGET CALL")) := by
  refine ⟨?_, rfl, rfl, rfl, rfl⟩
  intro fuel u1 u2
  cases fuel with
  | zero => rfl
  | succ n => rfl

/-- ASCII lowercasing cannot produce the vendor-private separator. -/
theorem lowerChar_ne_dot (c : Char) (h : c ≠ '.') : lowerChar c ≠ '.' := by
  unfold lowerChar
  split <;> first | decide | exact h

/-- Lowercasing a dot-free tag keeps it dot-free. -/
theorem hasDot_lower (s : String) (h : hasDot s = false) :
    hasDot (lowerString s) = false := by
  unfold hasDot at h ⊢
  show ((s.data.map lowerChar).any fun c => c == '.') = false
  rw [List.any_map]
  rw [Bool.eq_false_iff] at h ⊢
  intro hc
  apply h
  obtain ⟨c, hcm, hbeq⟩ := List.any_eq_true.mp hc
  have hlc : lowerChar c = '.' := eq_of_beq hbeq
  have hcd : c = '.' := by
    by_contra hne
    exact (lowerChar_ne_dot c hne) hlc
  exact List.any_eq_true.mpr ⟨c, hcm, by rw [hcd]; decide⟩

/-- Dict assignment under a dot-free key keeps all keys dot-free. -/
theorem keysNoDot_upd (d : List (String × String)) (k : String) (x : String)
    (hd : keysNoDot d) (hk : hasDot k = false) : keysNoDot (upd d k x) := by
  unfold upd
  split
  · intro kv hkv
    obtain ⟨kv0, hkv0, hmap⟩ := List.mem_map.mp hkv
    by_cases hEq : (kv0.1 == k) = true
    · rw [if_pos hEq] at hmap
      rw [← hmap]
      exact hk
    · rw [if_neg hEq] at hmap
      rw [← hmap]
      exact hd kv0 hkv0
  · intro kv hkv
    rw [List.mem_append] at hkv
    cases hkv with
    | inl hin => exact hd kv hin
    | inr hin =>
      rw [List.mem_singleton] at hin
      rw [hin]
      exact hk

/-- Python `dict.update` with dot-free keys on both sides stays dot-free. -/
theorem keysNoDot_updMany (d2 : List (String × String)) :
    ∀ d, keysNoDot d → keysNoDot d2 → keysNoDot (updMany d d2) := by
  induction d2 with
  | nil => intro d hd _; exact hd
  | cons kv t ih =>
    intro d hd h2
    exact ih (upd d kv.1 kv.2)
      (keysNoDot_upd d kv.1 kv.2 hd (h2 kv (List.mem_cons_self _ _)))
      (fun kv' h' => h2 kv' (List.mem_cons_of_mem _ h'))

/-- A dotted tag is never a key of a dict whose keys are dot-free, so
the `assert tag not in leaves` guard cannot fire for a private tag. -/
theorem containsD_false_of_dot (leaves : List (String × String))
    (tag : String) (hl : keysNoDot leaves) (ht : hasDot tag = true) :
    containsD leaves tag = false := by
  unfold containsD
  rw [Bool.eq_false_iff]
  intro hc
  obtain ⟨kv, hm, hbeq⟩ := List.any_eq_true.mp hc
  have h1 : kv.1 = tag := eq_of_beq hbeq
  have h2 := hl kv hm
  rw [h1, ht] at h2
  cases h2

/-- The child loop accumulates only dot-free keys (leaf keys are
lowercased dot-free tags; aggregate keys come from recursive results
assumed dot-free). -/
theorem goChildren_keysNoDot
    (r : RawElem → Except DErr (List (String × String)))
    (hr : ∀ c m, r c = .ok m → keysNoDot m) :
    ∀ (cs : List RawElem) (aggs leaves aggs2 leaves2 : List (String × String)),
    keysNoDot aggs → keysNoDot leaves →
    goChildren r cs aggs leaves = .ok (aggs2, leaves2) →
    keysNoDot aggs2 ∧ keysNoDot leaves2 := by
  intro cs
  induction cs with
  | nil =>
    intro aggs leaves a2 l2 ha hl h
    simp only [goChildren] at h
    injection h with h
    injection h with h1 h2
    subst h1
    subst h2
    exact ⟨ha, hl⟩
  | cons c cs ih =>
    intro aggs leaves a2 l2 ha hl h
    simp only [goChildren] at h
    by_cases hdata : stripStr (c.text.getD "") = ""
    · rw [if_pos hdata] at h
      by_cases hca : (containsD aggs c.tag) = true
      · rw [if_pos hca] at h
        cases h
      · rw [if_neg hca] at h
        cases hrc : r c with
        | error err => rw [hrc] at h; cases h
        | ok sub =>
          rw [hrc] at h
          exact ih _ _ _ _
            (keysNoDot_updMany sub aggs ha (hr c sub hrc)) hl h
    · rw [if_neg hdata] at h
      by_cases hcl : (containsD leaves c.tag) = true
      · rw [if_pos hcl] at h
        cases h
      · rw [if_neg hcl] at h
        by_cases hdot : (hasDot c.tag) = true
        · rw [if_pos hdot] at h
          exact ih _ _ _ _ ha hl h
        · rw [if_neg hdot] at h
          rw [Bool.not_eq_true] at hdot
          exact ih _ _ _ _ ha
            (keysNoDot_upd leaves (lowerString c.tag) _ hl
              (hasDot_lower c.tag hdot)) h

/-- Every key `_flatten` returns is free of the vendor-private
separator, at every fuel. -/
theorem flattenF_keysNoDot : ∀ (n : Nat) (e : RawElem)
    (m : List (String × String)), flattenF n e = .ok m → keysNoDot m := by
  intro n
  induction n with
  | zero => intro e m h; cases h
  | succ n ih =>
    intro e m h
    simp only [flattenF] at h
    cases hg : goChildren (flattenF n) e.children [] [] with
    | error err => rw [hg] at h; cases h
    | ok p =>
      obtain ⟨aggs, leaves⟩ := p
      rw [hg] at h
      have h2 : (if (aggs.any fun kv => containsD leaves kv.1) = true
          then Except.error DErr.assertionError
          else Except.ok (updMany leaves aggs)) = Except.ok m := h
      by_cases hcol : (aggs.any fun kv => containsD leaves kv.1) = true
      · rw [if_pos hcol] at h2
        cases h2
      · rw [if_neg hcol] at h2
        injection h2 with h2
        subst h2
        obtain ⟨ha, hl⟩ := goChildren_keysNoDot (flattenF n)
          (fun c m2 hc => ih c m2 hc) e.children [] [] aggs leaves
          (fun kv hkv => by cases hkv) (fun kv hkv => by cases hkv) hg
        exact keysNoDot_updMany aggs leaves hl ha

/-- Equation: `stripPrivateLeaves` unfolded to a plain filter-and-map. -/
theorem strip_mk (t : String) (x : Option String) (cs : List RawElem) :
    stripPrivateLeaves (.mk t x cs) = .mk t x (stripChildren cs) := by
  rw [stripPrivateLeaves]
  unfold stripChildren
  rw [List.attach_map_val]

theorem stripChildren_cons (c : RawElem) (cs : List RawElem) :
    stripChildren (c :: cs) =
      if keepChild c = true then stripPrivateLeaves c :: stripChildren cs
      else stripChildren cs := by
  unfold stripChildren
  rw [List.filter_cons]
  by_cases h : keepChild c = true
  · rw [if_pos h, if_pos h, List.map_cons]
  · rw [if_neg h, if_neg h]

theorem strip_tag (c : RawElem) : (stripPrivateLeaves c).tag = c.tag := by
  obtain ⟨t, x, cs⟩ := c
  rw [strip_mk]
  rfl

theorem strip_text (c : RawElem) : (stripPrivateLeaves c).text = c.text := by
  obtain ⟨t, x, cs⟩ := c
  rw [strip_mk]
  rfl

/-- The one-child unfolding of the `for child in element` loop. -/
theorem goChildren_cons (r : RawElem → Except DErr (List (String × String)))
    (c : RawElem) (cs : List RawElem)
    (aggs leaves : List (String × String)) :
    goChildren r (c :: cs) aggs leaves =
      (if stripStr (c.text.getD "") = "" then
        if containsD aggs c.tag then .error .assertionError
        else
          match r c with
          | .error e => .error e
          | .ok sub => goChildren r cs (updMany aggs sub) leaves
      else
        if containsD leaves c.tag then .error .assertionError
        else goChildren r cs aggs
          (if hasDot c.tag then leaves
           else upd leaves (lowerString c.tag) (stripStr (c.text.getD "")))) :=
  rfl

/-- Erasing dotted data-bearing leaves does not change the child loop,
as long as the accumulated leaf keys are dot-free (which they always
are, starting from the empty dict). -/
theorem goChildren_strip_eq (n : Nat)
    (ih : ∀ e, flattenF n (stripPrivateLeaves e) = flattenF n e) :
    ∀ (cs : List RawElem) (aggs leaves : List (String × String)),
    keysNoDot leaves →
    goChildren (flattenF n) (stripChildren cs) aggs leaves =
      goChildren (flattenF n) cs aggs leaves := by
  intro cs
  induction cs with
  | nil => intro aggs leaves _; rfl
  | cons c cs ihcs =>
    intro aggs leaves hkeys
    rw [stripChildren_cons]
    by_cases hkeep : keepChild c = true
    · rw [if_pos hkeep, goChildren_cons, goChildren_cons,
        strip_tag, strip_text]
      by_cases hdata : stripStr (c.text.getD "") = ""
      · rw [if_pos hdata, if_pos hdata]
        by_cases hca : (containsD aggs c.tag) = true
        · rw [if_pos hca, if_pos hca]
        · rw [if_neg hca, if_neg hca, ih c]
          cases hrc : flattenF n c with
          | error err => rfl
          | ok sub => exact ihcs _ _ hkeys
      · rw [if_neg hdata, if_neg hdata]
        by_cases hcl : (containsD leaves c.tag) = true
        · rw [if_pos hcl, if_pos hcl]
        · rw [if_neg hcl, if_neg hcl]
          by_cases hdot : (hasDot c.tag) = true
          · rw [if_pos hdot]
            exact ihcs _ _ hkeys
          · rw [if_neg hdot]
            rw [Bool.not_eq_true] at hdot
            exact ihcs _ _
              (keysNoDot_upd leaves (lowerString c.tag) _ hkeys
                (hasDot_lower c.tag hdot))
    · rw [if_neg hkeep]
      have hkc : ¬(stripStr (c.text.getD "") = "") ∧ hasDot c.tag = true := by
        unfold keepChild at hkeep
        rw [Bool.not_eq_true, Bool.or_eq_false_iff] at hkeep
        obtain ⟨h1, h2⟩ := hkeep
        constructor
        · intro hEq
          rw [hEq] at h1
          simp at h1
        · rw [Bool.not_eq_false'] at h2
          exact h2
      rw [goChildren_cons, if_neg hkc.1,
        if_neg (by rw [containsD_false_of_dot leaves c.tag hkeys hkc.2]; simp),
        if_pos hkc.2]
      exact ihcs aggs leaves hkeys

/-- Lemma: `_flatten` gives the same result on a tree with all its
vendor-private data-bearing leaves erased, at every fuel. -/
theorem flattenF_strip : ∀ (n : Nat) (e : RawElem),
    flattenF n (stripPrivateLeaves e) = flattenF n e := by
  intro n
  induction n with
  | zero => intro e; rfl
  | succ n ih =>
    intro e
    obtain ⟨t, x, cs⟩ := e
    rw [strip_mk]
    simp only [flattenF]
    rw [show (RawElem.mk t x (stripChildren cs)).children = stripChildren cs
          from rfl,
        show (RawElem.mk t x cs).children = cs from rfl,
        goChildren_strip_eq n ih cs [] [] (fun kv hkv => by cases hkv)]

/-- C7: a data-bearing leaf with a dotted (vendor-private) tag is
silently dropped during flattening: erasing every such leaf at every
nesting depth changes nothing — same success or failure, same
mapping — so its presence never causes an error and it never
contributes a field; moreover no key of any flattening result contains
the separator, so such a field can never surface on a Record. -/
theorem private_tags_silently_dropped (n : Nat) (e : RawElem) :
    flattenF n (stripPrivateLeaves e) = flattenF n e ∧
    (∀ m, flattenF n e = .ok m →
      (m.all fun kv => !hasDot kv.1) = true) := by
  constructor
  · exact flattenF_strip n e
  · intro m hm
    rw [List.all_eq_true]
    intro kv hkv
    rw [Bool.not_eq_true']
    exact flattenF_keysNoDot n e m hm kv hkv

/-- C7 witness: on a node with an `INTU.BID` private leaf next to a
BALAMT leaf, stripping the private leaf leaves flattening unchanged,
and the resulting mapping's keys are dot-free. -/
theorem private_tags_silently_dropped_witness :
    flattenF 2 (stripPrivateLeaves (.mk "TEST" none
      [.mk "INTU.BID" (some "123") [], .mk "BALAMT" (some "5") []])) =
      flattenF 2 (.mk "TEST" none
        [.mk "INTU.BID" (some "123") [], .mk "BALAMT" (some "5") []]) ∧
    ([("balamt", "5")].all fun kv => !hasDot kv.1) = true :=
  ⟨(private_tags_silently_dropped 2 (.mk "TEST" none
      [.mk "INTU.BID" (some "123") [], .mk "BALAMT" (some "5") []])).1,
   (private_tags_silently_dropped 2 (.mk "TEST" none
      [.mk "INTU.BID" (some "123") [], .mk "BALAMT" (some "5") []])).2
     [("balamt", "5")] rfl⟩
